import Mathlib

/-!
# BrandPulse dashboard: client state layer

A shallow embedding of `src/frontend/src/App.js`: the `Dashboard` component
(search session) and the `Watchlist` component (watchlist session).

* React state is a record; every `setX(v)` call is a field update.
* An `async` handler is split at its `await`: the part before it runs when the
  handler is invoked (it may issue a remote call and leaves a pending
  continuation holding the values its closure captured), the part after it runs
  when the remote call settles.
* `toast.custom(...)` appends to a list of emitted notifications, and
  `axios.post/get/delete` appends to a list of issued remote calls.
* Property keys of the `counts` object and article identifiers are strings.
-/

namespace BrandPulse

/-! ## Data model -/

/-- An article as received from the remote service. -/
structure Article where
  id : String
  title : String
  source : String
  link : String
  published : String
  sentiment : String
  keyword : Option String
deriving DecidableEq, Repr

/-- The `type` prop of `NotificationToast`. -/
inductive Severity where
  | success
  | error
  | info
deriving DecidableEq, Repr

/-- One `toast.custom` call: the title and the severity of the rendered
`NotificationToast` (the message text is presentational). -/
structure Notification where
  title : String
  type : Severity
deriving DecidableEq, Repr

/-! ## The `counts` object of `calculateStats` -/

/-- A plain object with numeric values, as an insertion-ordered list of own
properties. Only own properties are modelled: a key that names a member of
`Object.prototype` is read as absent, which concerns no key the view reads. -/
abbrev Counts := List (String × Nat)

/-- Property read `counts[k]`; `none` stands for `undefined`. -/
def Counts.get : Counts → String → Option Nat
  | [], _ => none
  | (k', v) :: rest, k => if k' = k then some v else Counts.get rest k

/-- Property write `counts[k] = v`. -/
def Counts.set : Counts → String → Nat → Counts
  | [], k, v => [(k, v)]
  | (k', v') :: rest, k, v =>
    if k' = k then (k', v) :: rest else (k', v') :: Counts.set rest k v

/-- The literal `{ positive: 0, negative: 0, neutral: 0 }`. -/
def zeroCounts : Counts := [("positive", 0), ("negative", 0), ("neutral", 0)]

/-- Body of the `forEach` callback:
`counts[article.sentiment] = (counts[article.sentiment] || 0) + 1`. -/
def countArticle (counts : Counts) (article : Article) : Counts :=
  counts.set article.sentiment ((counts.get article.sentiment).getD 0 + 1)

/-- The value `calculateStats` passes to `setStats`. -/
def calculateStats (articlesList : List Article) : Counts :=
  articlesList.foldl countArticle zeroCounts

/-- Number of articles of a list whose sentiment is `s`. -/
def sentimentCount (s : String) (articlesList : List Article) : Nat :=
  articlesList.countP (fun a => decide (a.sentiment = s))

/-- The three sentiments the dashboard displays. -/
def knownSentiments : List String := ["positive", "negative", "neutral"]

/-- Whether a sentiment label is one of the three known values. -/
def isKnown (s : String) : Bool := decide (s ∈ knownSentiments)

/-- Shorthand for building test articles. -/
def mkArticle (id sentiment : String) : Article :=
  { id := id, title := "", source := "", link := "", published := "",
    sentiment := sentiment, keyword := none }


/-! ## Strings and sets -/

/-- ECMAScript `WhiteSpace` and `LineTerminator` code points, the characters
`String.prototype.trim` strips. -/
def isJsWhiteSpace (c : Char) : Bool :=
  let n := c.toNat
  n == 0x09 || n == 0x0A || n == 0x0B || n == 0x0C || n == 0x0D || n == 0x20 ||
  n == 0xA0 || n == 0x1680 || (0x2000 ≤ n && n ≤ 0x200A) || n == 0x2028 ||
  n == 0x2029 || n == 0x202F || n == 0x205F || n == 0x3000 || n == 0xFEFF

/-- Strip leading white space. -/
def trimStart (cs : List Char) : List Char := cs.dropWhile isJsWhiteSpace

/-- Strip trailing white space. -/
def trimEnd (cs : List Char) : List Char := (cs.reverse.dropWhile isJsWhiteSpace).reverse

/-- The method `String.prototype.trim`. -/
def jsTrim (s : String) : String := ⟨trimEnd (trimStart s.data)⟩

/-- A JavaScript `Set` of strings, as the list of its members in insertion
order. `Set.prototype.add`. -/
def setAdd (s : List String) (x : String) : List String :=
  if x ∈ s then s else s ++ [x]

/-- The constructor `new Set(iterable)`. -/
def newSet (items : List String) : List String := items.foldl setAdd []

/-- The method `Set.prototype.has`. -/
def setHas (s : List String) (x : String) : Bool := decide (x ∈ s)

/-! ## Remote gateway -/

/-- A request handed to `axios`. -/
inductive RemoteCall where
  | search (keyword : String)
  | save (article : Article)
  | list
  | remove (articleId : String)
deriving DecidableEq, Repr

/-- How an awaited `axios` promise settles: fulfilled with a payload, or
rejected. -/
inductive Settled (α : Type) where
  | ok (data : α)
  | error
deriving DecidableEq, Repr

/-- The body `response.data` of a fulfilled search request; `articles` is `none`
when that field is `undefined` or `null`. -/
structure SearchBody where
  articles : Option (List Article)
deriving DecidableEq, Repr

/-- What a dashboard request settles to: rejected, or fulfilled with
`response.data`, which is `none` when it is `undefined` or `null`. -/
abbrev Reply := Settled (Option SearchBody)

/-- What one handler run emitted: notifications and remote calls, in order. -/
structure Effects where
  toasts : List Notification
  calls : List RemoteCall
deriving DecidableEq, Repr

/-! ## Notifications raised by the handlers -/

def searchErrorToast : Notification := ⟨"Search Error", .error⟩
def noResultsToast : Notification := ⟨"No Results Found", .info⟩
def connectionErrorToast : Notification := ⟨"Connection Error", .error⟩
def articleSavedToast : Notification := ⟨"Article Saved", .success⟩
def saveFailedToast : Notification := ⟨"Save Failed", .error⟩
def errorLoadingToast : Notification := ⟨"Error Loading Watchlist", .error⟩
def articleRemovedToast : Notification := ⟨"Article Removed", .info⟩
def removalFailedToast : Notification := ⟨"Removal Failed", .error⟩

/-! ## Dashboard (search session) -/

/-- The five `useState` cells of `Dashboard`. -/
structure DashboardState where
  keyword : String
  articles : List Article
  loading : Bool
  savedIds : List String
  stats : Counts
deriving DecidableEq, Repr

/-- Initial values of the `useState` cells. -/
def DashboardState.initial : DashboardState :=
  { keyword := "", articles := [], loading := false, savedIds := newSet [],
    stats := zeroCounts }

/-- A handler suspended at its `await`, with the state values its closure
captured when it was invoked. -/
inductive Pending where
  | searchNews (keyword : String)
  | saveArticle (savedIds : List String) (article : Article)
deriving DecidableEq, Repr

/-- Part of `searchNews` up to the `await`: the empty-keyword guard, then
`setLoading(true)` and the search request. -/
def searchNews.dispatch (s : DashboardState) : DashboardState × Option Pending × Effects :=
  if jsTrim s.keyword = "" then
    (s, none, { toasts := [searchErrorToast], calls := [] })
  else
    ({ s with loading := true }, some (.searchNews s.keyword),
      { toasts := [], calls := [.search s.keyword] })

/-- Part of `searchNews` after the `await`: the rest of the `try` block when the
promise is fulfilled, the `catch` block when it is rejected, then `finally`.
With a fulfilled promise whose `response.data` is `undefined` or `null`, reading
`response.data.articles` throws inside `try` before any setter is called, so
the `catch` block runs. -/
def searchNews.settle (s : DashboardState) (r : Reply) : DashboardState × List Notification :=
  match r with
  | .ok (some data) =>
    let s := { s with articles := data.articles.getD [] }
    let s := { s with stats := calculateStats (data.articles.getD []) }
    let toasts := if data.articles.map List.length = some 0 then [noResultsToast] else []
    ({ s with loading := false }, toasts)
  | .ok none => ({ s with loading := false }, [connectionErrorToast])
  | .error => ({ s with loading := false }, [connectionErrorToast])

/-- One whole run of `searchNews` in which the remote call settles as `r` and no
other event comes in between. -/
def searchNews (s : DashboardState) (r : Reply) : DashboardState × Effects :=
  match searchNews.dispatch s with
  | (s, none, fx) => (s, fx)
  | (s, some _, fx) =>
    let (s, toasts) := searchNews.settle s r
    (s, { fx with toasts := fx.toasts ++ toasts })

/-- Part of `saveArticle` up to the `await`: the save request. The closure keeps
the `savedIds` of the render the handler belongs to. -/
def saveArticle.dispatch (s : DashboardState) (article : Article) : Pending × Effects :=
  (.saveArticle s.savedIds article, { toasts := [], calls := [.save article] })

/-- Part of `saveArticle` after the `await`; `savedIds` is the captured set. The
response of the save request is not read. -/
def saveArticle.settle (s : DashboardState) (savedIds : List String) (article : Article)
    (r : Reply) : DashboardState × List Notification :=
  match r with
  | .ok _ => ({ s with savedIds := newSet (savedIds ++ [article.id]) }, [articleSavedToast])
  | .error => (s, [saveFailedToast])

/-- One whole run of `saveArticle` in which the remote call settles as `r` and no
other event comes in between. -/
def saveArticle (s : DashboardState) (article : Article) (r : Reply) :
    DashboardState × Effects :=
  let (s, toasts) := saveArticle.settle s s.savedIds article r
  (s, { toasts := toasts, calls := [.save article] })

/-- The save button rendered for one article card. -/
structure SaveButton where
  article : Article
  disabled : Bool
deriving DecidableEq, Repr

/-- The save buttons of `articles.map(...)`, with
`disabled={savedIds.has(article.id)}`. -/
def saveButtons (s : DashboardState) : List SaveButton :=
  s.articles.map fun article => { article := article, disabled := setHas s.savedIds article.id }

/-- The dashboard together with its suspended handlers. -/
structure Session where
  st : DashboardState
  pending : List Pending
deriving DecidableEq, Repr

/-- The session right after mount. -/
def Session.initial : Session := { st := DashboardState.initial, pending := [] }

/-- What can happen to a mounted dashboard. -/
inductive Event where
  | setKeyword (text : String)
  | keyPress (key : String)
  | clickSearch
  | clickSave (index : Nat)
  | settle (i : Nat) (r : Reply)
deriving DecidableEq, Repr

/-- Invoke `searchNews` from an event. -/
def Session.invokeSearch (x : Session) : Session × Effects :=
  match searchNews.dispatch x.st with
  | (s, none, fx) => ({ x with st := s }, fx)
  | (s, some p, fx) => ({ st := s, pending := x.pending ++ [p] }, fx)

/-- One event of the session: the input `onChange`, `handleKeyPress`, the search
button (`disabled={loading}`), a save button, or the settling of the `i`-th
suspended handler. -/
def step (x : Session) : Event → Session × Effects
  | .setKeyword text => ({ x with st := { x.st with keyword := text } }, ⟨[], []⟩)
  | .keyPress key => if key = "Enter" then x.invokeSearch else (x, ⟨[], []⟩)
  | .clickSearch => if x.st.loading then (x, ⟨[], []⟩) else x.invokeSearch
  | .clickSave index =>
    match (saveButtons x.st)[index]? with
    | none => (x, ⟨[], []⟩)
    | some b =>
      if b.disabled then (x, ⟨[], []⟩)
      else
        let (p, fx) := saveArticle.dispatch x.st b.article
        ({ x with pending := x.pending ++ [p] }, fx)
  | .settle i r =>
    match x.pending[i]? with
    | none => (x, ⟨[], []⟩)
    | some (.searchNews _) =>
      let (s, toasts) := searchNews.settle x.st r
      ({ st := s, pending := x.pending.eraseIdx i }, ⟨toasts, []⟩)
    | some (.saveArticle savedIds article) =>
      let (s, toasts) := saveArticle.settle x.st savedIds article r
      ({ st := s, pending := x.pending.eraseIdx i }, ⟨toasts, []⟩)

/-- The session after a sequence of events. -/
def run (x : Session) : List Event → Session
  | [] => x
  | e :: es => run (step x e).1 es

/-! ## Watchlist (watchlist session) -/

/-- The two `useState` cells of `Watchlist`. -/
structure WatchlistState where
  savedArticles : List Article
  loading : Bool
deriving DecidableEq, Repr

/-- Initial values of the `useState` cells. -/
def WatchlistState.initial : WatchlistState := { savedArticles := [], loading := true }

/-- Part of `fetchWatchlist` after the `await`. -/
def fetchWatchlist.settle (s : WatchlistState) (r : Settled (List Article)) :
    WatchlistState × List Notification :=
  match r with
  | .ok data =>
    let s := { s with savedArticles := data }
    ({ s with loading := false }, [])
  | .error => ({ s with loading := false }, [errorLoadingToast])

/-- One whole run of `fetchWatchlist` in which the remote call settles as `r`. -/
def fetchWatchlist (s : WatchlistState) (r : Settled (List Article)) :
    WatchlistState × Effects :=
  let (s, toasts) := fetchWatchlist.settle s r
  (s, { toasts := toasts, calls := [.list] })

/-- Part of `removeArticle` after the `await`; `savedArticles` is the sequence
the closure captured when the handler was invoked. -/
def removeArticle.settle (s : WatchlistState) (savedArticles : List Article)
    (articleId : String) (r : Settled Unit) : WatchlistState × List Notification :=
  match r with
  | .ok _ =>
    ({ s with savedArticles := savedArticles.filter fun a => decide (a.id ≠ articleId) },
      [articleRemovedToast])
  | .error => (s, [removalFailedToast])

/-- One whole run of `removeArticle` in which the remote call settles as `r` and
no other event comes in between. -/
def removeArticle (s : WatchlistState) (articleId : String) (r : Settled Unit) :
    WatchlistState × Effects :=
  let (s, toasts) := removeArticle.settle s s.savedArticles articleId r
  (s, { toasts := toasts, calls := [.remove articleId] })

/-! ## Concrete inputs -/

/-- A state whose keyword is only white space. -/
def blankState : DashboardState := { DashboardState.initial with keyword := " \t" }

/-- A state with the keyword typed in. -/
def teslaState : DashboardState := { DashboardState.initial with keyword := "Tesla" }

/-- Two articles returned by one search. -/
def articleA : Article := mkArticle "a" "positive"

/-- The second article of the pair. -/
def articleB : Article := mkArticle "b" "negative"

/-- A session showing `articleA`, already saved. -/
def savedSession : Session :=
  { st := { keyword := "Tesla", articles := [articleA], loading := false,
            savedIds := ["a"], stats := calculateStats [articleA] },
    pending := [] }

/-- A search returning two articles, then both save buttons clicked before either
save request settles, then the first save fulfilled. -/
def overlappingSaves : List Event :=
  [.setKeyword "Tesla", .clickSearch, .settle 0 (.ok (some { articles := some [articleA, articleB] })),
   .clickSave 0, .clickSave 1, .settle 0 (.ok none)]

/-! ## Lemmas on `Counts` -/

theorem Counts.get_set_same (c : Counts) (k : String) (v : Nat) :
    (c.set k v).get k = some v := by
  induction c with
  | nil => simp [Counts.set, Counts.get]
  | cons p rest ih =>
    obtain ⟨k', v'⟩ := p
    by_cases h : k' = k
    · simp [Counts.set, Counts.get, h]
    · simp [Counts.set, Counts.get, h, ih]

theorem Counts.get_set_other (c : Counts) (k j : String) (v : Nat) (h : k ≠ j) :
    (c.set k v).get j = c.get j := by
  induction c with
  | nil => simp [Counts.set, Counts.get, h]
  | cons p rest ih =>
    obtain ⟨k', v'⟩ := p
    by_cases hk : k' = k
    · subst hk
      simp [Counts.set, Counts.get, h]
    · by_cases hj : k' = j
      · subst hj
        simp [Counts.set, Counts.get, hk]
      · simp [Counts.set, Counts.get, hk, hj, ih]

theorem get_countArticle (c : Counts) (a : Article) (s : String) (n : Nat)
    (h : c.get s = some n) :
    (countArticle c a).get s = some (n + if a.sentiment = s then 1 else 0) := by
  unfold countArticle
  by_cases hs : a.sentiment = s
  · subst hs
    rw [Counts.get_set_same, h]
    simp
  · rw [Counts.get_set_other _ _ _ _ hs, h]
    simp [hs]

theorem get_foldl_countArticle (l : List Article) (c : Counts) (s : String) (n : Nat)
    (h : c.get s = some n) :
    (l.foldl countArticle c).get s = some (n + sentimentCount s l) := by
  induction l generalizing c n with
  | nil => simp [sentimentCount, h]
  | cons a rest ih =>
    rw [List.foldl_cons, ih _ _ (get_countArticle c a s n h)]
    unfold sentimentCount
    rw [List.countP_cons]
    by_cases hs : a.sentiment = s
    · simp [hs]; omega
    · simp [hs]

theorem get_calculateStats (l : List Article) (s : String) (hs : s ∈ knownSentiments) :
    (calculateStats l).get s = some (sentimentCount s l) := by
  have h0 : zeroCounts.get s = some 0 := by
    simp only [knownSentiments, List.mem_cons, List.mem_singleton, List.not_mem_nil,
      or_false] at hs
    rcases hs with rfl | rfl | rfl <;> decide
  have := get_foldl_countArticle l zeroCounts s 0 h0
  simpa [calculateStats] using this

theorem sentimentCount_known (l : List Article) :
    l.countP (fun a => isKnown a.sentiment) =
      sentimentCount "positive" l + sentimentCount "negative" l + sentimentCount "neutral" l := by
  induction l with
  | nil => simp [sentimentCount]
  | cons a rest ih =>
    unfold sentimentCount at ih ⊢
    simp only [List.countP_cons, ih]
    by_cases h1 : a.sentiment = "positive"
    · simp [h1, isKnown, knownSentiments]; omega
    · by_cases h2 : a.sentiment = "negative"
      · simp [h2, isKnown, knownSentiments]; omega
      · by_cases h3 : a.sentiment = "neutral"
        · simp [h3, isKnown, knownSentiments]; omega
        · simp [h1, h2, h3, isKnown, knownSentiments]

theorem sentimentCount_insert_other (pre post : List Article) (a : Article) (s : String)
    (h : a.sentiment ≠ s) :
    sentimentCount s (pre ++ a :: post) = sentimentCount s (pre ++ post) := by
  simp [sentimentCount, List.countP_append, List.countP_cons, h]

/-! ## Lemmas on trimming and sets -/

theorem dropWhile_eq_nil_of_all (p : Char → Bool) (cs : List Char)
    (h : ∀ c ∈ cs, p c = true) : cs.dropWhile p = [] := by
  induction cs with
  | nil => rfl
  | cons c rest ih =>
    have hc : p c = true := h c (List.mem_cons_self c rest)
    have hr : ∀ d ∈ rest, p d = true := fun d hd => h d (List.mem_cons_of_mem c hd)
    simp [List.dropWhile_cons, hc, ih hr]

theorem jsTrim_blank (keyword : String)
    (h : ∀ c ∈ keyword.data, isJsWhiteSpace c = true) : jsTrim keyword = "" := by
  have h1 : trimStart keyword.data = [] := dropWhile_eq_nil_of_all _ _ h
  simp only [jsTrim, h1]
  rfl

theorem mem_foldl_setAdd (items acc : List String) (y : String) :
    y ∈ items.foldl setAdd acc ↔ y ∈ acc ∨ y ∈ items := by
  induction items generalizing acc with
  | nil => simp
  | cons x rest ih =>
    rw [List.foldl_cons, ih]
    unfold setAdd
    by_cases hx : x ∈ acc
    · simp only [hx, if_true, List.mem_cons]
      constructor
      · rintro (h | h)
        · exact Or.inl h
        · exact Or.inr (Or.inr h)
      · rintro (h | h | h)
        · exact Or.inl h
        · subst h; exact Or.inl hx
        · exact Or.inr h
    · simp only [hx, if_false, List.mem_append, List.mem_singleton, List.mem_cons]
      tauto

theorem mem_newSet (items : List String) (y : String) : y ∈ newSet items ↔ y ∈ items := by
  simp [newSet, mem_foldl_setAdd]

/-! ## Lemmas on the session -/

theorem invokeSearch_stats (x : Session) :
    x.invokeSearch.1.st.stats = x.st.stats ∧ x.invokeSearch.1.st.articles = x.st.articles := by
  unfold Session.invokeSearch searchNews.dispatch
  split_ifs <;> simp

theorem step_keeps_stats (x : Session) (e : Event)
    (h : x.st.stats = calculateStats x.st.articles) :
    (step x e).1.st.stats = calculateStats (step x e).1.st.articles := by
  cases e with
  | setKeyword text => simpa [step] using h
  | keyPress key =>
    simp only [step]
    split_ifs
    · rw [(invokeSearch_stats x).1, (invokeSearch_stats x).2]; exact h
    · exact h
  | clickSearch =>
    simp only [step]
    split_ifs
    · exact h
    · rw [(invokeSearch_stats x).1, (invokeSearch_stats x).2]; exact h
  | clickSave index =>
    simp only [step]
    split
    · exact h
    · split_ifs
      · exact h
      · simpa [saveArticle.dispatch] using h
  | settle i r =>
    simp only [step]
    split
    · exact h
    · rcases r with (_ | data) | _
      · simpa [searchNews.settle] using h
      · simp [searchNews.settle]
      · simpa [searchNews.settle] using h
    · cases r with
      | ok articles => simpa [saveArticle.settle] using h
      | error => simpa [saveArticle.settle] using h

theorem run_keeps_stats (es : List Event) (x : Session)
    (h : x.st.stats = calculateStats x.st.articles) :
    (run x es).st.stats = calculateStats (run x es).st.articles := by
  induction es generalizing x with
  | nil => exact h
  | cons e rest ih => exact ih _ (step_keeps_stats x e h)

theorem invokeSearch_calls (x : Session) (X : Article) :
    RemoteCall.save X ∉ x.invokeSearch.2.calls := by
  unfold Session.invokeSearch searchNews.dispatch
  split_ifs <;> simp

/-! ## Sentiment aggregation -/

/-- C1: for every list of articles, each of the three known buckets of
`calculateStats` holds the number of articles with that sentiment; the three
buckets sum to the number of articles with a known sentiment; inserting an
article with an unrecognized sentiment anywhere changes none of the three
buckets; and sentiments positive, positive, negative give 2, 1, 0. -/
theorem calculateStats_buckets (articlesList : List Article) :
    (calculateStats articlesList).get "positive" = some (sentimentCount "positive" articlesList) ∧
    (calculateStats articlesList).get "negative" = some (sentimentCount "negative" articlesList) ∧
    (calculateStats articlesList).get "neutral" = some (sentimentCount "neutral" articlesList) ∧
    ((calculateStats articlesList).get "positive").getD 0 +
        ((calculateStats articlesList).get "negative").getD 0 +
        ((calculateStats articlesList).get "neutral").getD 0 =
      articlesList.countP (fun a => isKnown a.sentiment) ∧
    (∀ (i : Nat) (a : Article) (s : String), isKnown a.sentiment = false → s ∈ knownSentiments →
      (calculateStats (articlesList.take i ++ a :: articlesList.drop i)).get s =
        (calculateStats articlesList).get s) ∧
    calculateStats [mkArticle "1" "positive", mkArticle "2" "positive", mkArticle "3" "negative"] =
      [("positive", 2), ("negative", 1), ("neutral", 0)] := by
  have hp := get_calculateStats articlesList "positive" (by decide)
  have hn := get_calculateStats articlesList "negative" (by decide)
  have hu := get_calculateStats articlesList "neutral" (by decide)
  refine ⟨hp, hn, hu, ?_, ?_, by decide⟩
  · rw [hp, hn, hu, sentimentCount_known]
    rfl
  · intro i a s ha hs
    have hne : a.sentiment ≠ s := by
      intro h
      rw [h] at ha
      simp [isKnown, hs] at ha
    rw [get_calculateStats _ s hs, get_calculateStats _ s hs,
      sentimentCount_insert_other _ _ a s hne, List.take_append_drop]

/-- The aggregation of C1 with an unrecognized sentiment in the middle of the
list. -/
theorem calculateStats_buckets_witness :
    isKnown (mkArticle "9" "mixed").sentiment = false ∧ "positive" ∈ knownSentiments ∧
    (calculateStats (List.take 1 [articleA, articleB] ++ mkArticle "9" "mixed" ::
        List.drop 1 [articleA, articleB])).get "positive" =
      (calculateStats [articleA, articleB]).get "positive" :=
  ⟨by decide, by decide,
    (calculateStats_buckets [articleA, articleB]).2.2.2.2.1 1 (mkArticle "9" "mixed") "positive"
      (by decide) (by decide)⟩

/-- C2: after any sequence of events from the initial session, `stats` is the
aggregation of the current `articles`, so each of the three buckets holds the
number of current articles with that sentiment. -/
theorem stats_follow_articles (es : List Event) :
    (run Session.initial es).st.stats = calculateStats (run Session.initial es).st.articles ∧
    (run Session.initial es).st.stats.get "positive" =
      some (sentimentCount "positive" (run Session.initial es).st.articles) ∧
    (run Session.initial es).st.stats.get "negative" =
      some (sentimentCount "negative" (run Session.initial es).st.articles) ∧
    (run Session.initial es).st.stats.get "neutral" =
      some (sentimentCount "neutral" (run Session.initial es).st.articles) := by
  have h := run_keeps_stats es Session.initial rfl
  refine ⟨h, ?_, ?_, ?_⟩ <;> rw [h] <;> exact get_calculateStats _ _ (by decide)

/-! ## Search -/

/-- C3: when the keyword is empty or only white space, `searchNews` issues no
remote call, suspends no continuation, emits exactly one notification, of
severity error, and returns the state unchanged; the same holds when it is
invoked through the Enter key. -/
theorem searchNews_blank_keyword (s : DashboardState) (pending : List Pending) (r : Reply)
    (h : ∀ c ∈ s.keyword.data, isJsWhiteSpace c = true) :
    searchNews.dispatch s =
      (s, none, { toasts := [{ title := "Search Error", type := Severity.error }], calls := [] }) ∧
    searchNews s r =
      (s, { toasts := [{ title := "Search Error", type := Severity.error }], calls := [] }) ∧
    step { st := s, pending := pending } (Event.keyPress "Enter") =
      ({ st := s, pending := pending },
        { toasts := [{ title := "Search Error", type := Severity.error }], calls := [] }) := by
  have hb := jsTrim_blank s.keyword h
  refine ⟨?_, ?_, ?_⟩
  · simp [searchNews.dispatch, hb, searchErrorToast]
  · simp [searchNews, searchNews.dispatch, hb, searchErrorToast]
  · simp [step, Session.invokeSearch, searchNews.dispatch, hb, searchErrorToast]

/-- The rejected search of C3 on a keyword made of a space and a tab. -/
theorem searchNews_blank_keyword_witness :
    (∀ c ∈ blankState.keyword.data, isJsWhiteSpace c = true) ∧
    searchNews blankState Settled.error =
      (blankState, { toasts := [{ title := "Search Error", type := Severity.error }], calls := [] }) :=
  ⟨by decide, (searchNews_blank_keyword blankState [] Settled.error (by decide)).2.1⟩

/-- C4: with a keyword that is not empty after trimming, `searchNews` sets
`loading` to true when it issues the call; a failed search leaves the state as
it was except `loading = false`, emits exactly one notification, of severity
error, and has issued the one search call; and `loading` is false after
`searchNews` completes, however the call settles and in whatever state the
continuation runs. -/
theorem searchNews_failure (s : DashboardState) (h : jsTrim s.keyword ≠ "") :
    (searchNews.dispatch s).1 = { s with loading := true } ∧
    searchNews s Settled.error =
      ({ s with loading := false },
        { toasts := [{ title := "Connection Error", type := Severity.error }],
          calls := [RemoteCall.search s.keyword] }) ∧
    (∀ r : Reply, (searchNews s r).1.loading = false) ∧
    (∀ (t : DashboardState) (r : Reply), (searchNews.settle t r).1.loading = false) ∧
    (∀ t : DashboardState, searchNews.settle t Settled.error =
      ({ t with loading := false }, [{ title := "Connection Error", type := Severity.error }])) := by
  refine ⟨?_, ?_, ?_, ?_, ?_⟩
  · simp [searchNews.dispatch, h]
  · simp [searchNews, searchNews.dispatch, h, searchNews.settle, connectionErrorToast]
  · intro r
    rcases r with (_ | data) | _ <;>
      simp [searchNews, searchNews.dispatch, h, searchNews.settle]
  · intro t r
    rcases r with (_ | data) | _ <;> simp [searchNews.settle]
  · intro t
    simp [searchNews.settle, connectionErrorToast]

/-- The failed search of C4 on the keyword Tesla. -/
theorem searchNews_failure_witness :
    jsTrim teslaState.keyword ≠ "" ∧
    searchNews teslaState Settled.error =
      ({ teslaState with loading := false },
        { toasts := [{ title := "Connection Error", type := Severity.error }],
          calls := [RemoteCall.search teslaState.keyword] }) :=
  ⟨by decide, (searchNews_failure teslaState (by decide)).2.1⟩

/-- C5: a successful search replaces `articles` by the returned sequence (and
`stats` by its aggregation, `loading` by false); it emits exactly one
notification, of severity info, when that sequence is empty, and none when it is
not. The same holds for the continuation alone, in whatever state it runs. -/
theorem searchNews_success (s t : DashboardState) (returned : List Article)
    (h : jsTrim s.keyword ≠ "") :
    searchNews s (Settled.ok (some { articles := some returned })) =
      ({ s with articles := returned, stats := calculateStats returned, loading := false },
        { toasts := if returned = [] then [{ title := "No Results Found", type := Severity.info }]
                    else [],
          calls := [RemoteCall.search s.keyword] }) ∧
    searchNews.settle t (Settled.ok (some { articles := some returned })) =
      ({ t with articles := returned, stats := calculateStats returned, loading := false },
        if returned = [] then [{ title := "No Results Found", type := Severity.info }] else []) := by
  constructor
  · cases returned <;>
      simp [searchNews, searchNews.dispatch, h, searchNews.settle, noResultsToast]
  · cases returned <;> simp [searchNews.settle, noResultsToast]

/-- The successful searches of C5: zero matches and two matches. -/
theorem searchNews_success_witness :
    jsTrim teslaState.keyword ≠ "" ∧
    searchNews teslaState (Settled.ok (some { articles := some [] })) =
      ({ teslaState with articles := [], stats := zeroCounts, loading := false },
        { toasts := [{ title := "No Results Found", type := Severity.info }],
          calls := [RemoteCall.search "Tesla"] }) ∧
    searchNews teslaState (Settled.ok (some { articles := some [articleA, articleB] })) =
      ({ teslaState with articles := [articleA, articleB],
                         stats := [("positive", 1), ("negative", 1), ("neutral", 0)],
                         loading := false },
        { toasts := [], calls := [RemoteCall.search "Tesla"] }) :=
  ⟨by decide,
    (searchNews_success teslaState teslaState [] (by decide)).1,
    (searchNews_success teslaState teslaState [articleA, articleB] (by decide)).1⟩

/-! ## Saving -/

/-- C6: a fulfilled save sets `savedIds` to the set built from the captured
`savedIds` and the article's id, whose members are that id and the members of
the captured set, and emits one success notification; a rejected save leaves the
state as it is and emits one error notification. Nothing else in the state
changes in either case. -/
theorem saveArticle_outcomes (s t : DashboardState) (X : Article) (S : List String)
    (payload : Option SearchBody) :
    saveArticle s X (Settled.ok payload) =
      ({ s with savedIds := newSet (s.savedIds ++ [X.id]) },
        { toasts := [{ title := "Article Saved", type := Severity.success }],
          calls := [RemoteCall.save X] }) ∧
    saveArticle s X Settled.error =
      (s, { toasts := [{ title := "Save Failed", type := Severity.error }],
            calls := [RemoteCall.save X] }) ∧
    saveArticle.settle t S X (Settled.ok payload) =
      ({ t with savedIds := newSet (S ++ [X.id]) },
        [{ title := "Article Saved", type := Severity.success }]) ∧
    saveArticle.settle t S X Settled.error =
      (t, [{ title := "Save Failed", type := Severity.error }]) ∧
    (∀ y : String, y ∈ newSet (S ++ [X.id]) ↔ y = X.id ∨ y ∈ S) := by
  refine ⟨rfl, rfl, rfl, rfl, ?_⟩
  intro y
  rw [mem_newSet, List.mem_append, List.mem_singleton]
  tauto

/-- C7: in a state whose `savedIds` holds `X.id`, every save button for an
article with that id is disabled, and no event issues a save call for `X`. -/
theorem saved_article_not_resubmitted (x : Session) (X : Article)
    (h : X.id ∈ x.st.savedIds) :
    (∀ b ∈ saveButtons x.st, b.article.id = X.id → b.disabled = true) ∧
    (∀ e : Event, RemoteCall.save X ∉ (step x e).2.calls) := by
  have hb : ∀ b ∈ saveButtons x.st, b.article.id = X.id → b.disabled = true := by
    intro b hmem hid
    simp only [saveButtons, List.mem_map] at hmem
    obtain ⟨a, _, rfl⟩ := hmem
    simp only at hid
    simp [setHas, hid, h]
  refine ⟨hb, ?_⟩
  intro e
  cases e with
  | setKeyword text => simp [step]
  | keyPress key =>
    simp only [step]
    split_ifs
    · exact invokeSearch_calls x X
    · simp
  | clickSearch =>
    simp only [step]
    split_ifs
    · simp
    · exact invokeSearch_calls x X
  | clickSave index =>
    simp only [step]
    split
    · simp
    · rename_i b hget
      split_ifs with hd
      · simp
      · intro hcall
        simp only [saveArticle.dispatch, List.mem_singleton, RemoteCall.save.injEq] at hcall
        exact hd (hb b (List.getElem?_mem hget) (by rw [← hcall]))
  | settle i r =>
    simp only [step]
    split <;> simp

/-- The saved article of C7: its button is disabled and clicking it issues
nothing. -/
theorem saved_article_not_resubmitted_witness :
    articleA.id ∈ savedSession.st.savedIds ∧
    RemoteCall.save articleA ∉ (step savedSession (Event.clickSave 0)).2.calls :=
  ⟨by decide, (saved_article_not_resubmitted savedSession articleA (by decide)).2 (Event.clickSave 0)⟩

/-- C8 fails on the code: with two saves in flight at once, the second
continuation writes the set captured before the first one settled, and the
first identifier is dropped from `savedIds`. -/
theorem savedIds_drops_id_on_overlapping_saves :
    (run Session.initial overlappingSaves).st.savedIds = ["a"] ∧
    (run Session.initial overlappingSaves).pending = [Pending.saveArticle [] articleB] ∧
    (step (run Session.initial overlappingSaves) (Event.settle 0 (Settled.ok none))).1.st.savedIds
      = ["b"] ∧
    "a" ∉ (step (run Session.initial overlappingSaves)
      (Event.settle 0 (Settled.ok none))).1.st.savedIds := by
  decide

/-! ## Watchlist -/

/-- C9: a fulfilled remove sets `savedArticles` to the captured sequence without
the articles carrying the given id, the others kept in order, and emits one info
notification; a rejected remove leaves the state as it is and emits one error
notification. -/
theorem removeArticle_outcomes (s : WatchlistState) (articleId : String) :
    removeArticle s articleId (Settled.ok ()) =
      ({ s with savedArticles := s.savedArticles.filter fun a => decide (a.id ≠ articleId) },
        { toasts := [{ title := "Article Removed", type := Severity.info }],
          calls := [RemoteCall.remove articleId] }) ∧
    (∀ a : Article, a ∈ (removeArticle s articleId (Settled.ok ())).1.savedArticles ↔
      a ∈ s.savedArticles ∧ a.id ≠ articleId) ∧
    (removeArticle s articleId (Settled.ok ())).1.savedArticles.Sublist s.savedArticles ∧
    removeArticle s articleId Settled.error =
      (s, { toasts := [{ title := "Removal Failed", type := Severity.error }],
            calls := [RemoteCall.remove articleId] }) := by
  refine ⟨rfl, ?_, ?_, rfl⟩
  · intro a
    simp [removeArticle, removeArticle.settle, List.mem_filter]
  · simp only [removeArticle, removeArticle.settle]
    exact List.filter_sublist _

/-- C10: from the initial watchlist state a rejected load leaves `savedArticles`
empty, sets `loading` to false and emits one error notification; a fulfilled
load stores the returned sequence, sets `loading` to false and emits nothing;
from any state a rejected load keeps the `savedArticles` it found. -/
theorem fetchWatchlist_outcomes (s : WatchlistState) (data : List Article) :
    fetchWatchlist WatchlistState.initial Settled.error =
      ({ savedArticles := [], loading := false },
        { toasts := [{ title := "Error Loading Watchlist", type := Severity.error }],
          calls := [RemoteCall.list] }) ∧
    fetchWatchlist WatchlistState.initial (Settled.ok data) =
      ({ savedArticles := data, loading := false }, { toasts := [], calls := [RemoteCall.list] }) ∧
    fetchWatchlist s Settled.error =
      ({ s with loading := false },
        { toasts := [{ title := "Error Loading Watchlist", type := Severity.error }],
          calls := [RemoteCall.list] }) ∧
    fetchWatchlist s (Settled.ok data) =
      ({ savedArticles := data, loading := false }, { toasts := [], calls := [RemoteCall.list] }) := by
  exact ⟨rfl, rfl, rfl, rfl⟩

end BrandPulse
